import Mathlib

/-!
Shallow embedding of `src/src/motor/motor_pwm.c` (sapog motor PWM driver).

The hardware state touched by the phase-output operations is, per phase:
the two compare registers (TIM4->CCRx high side, TIM3->CCRx low side) and
the two polarity-inversion CCER bits (TIM4 CCxP, TIM3 CCxP).  These are
modelled as a record of three per-phase records.  Machine integers are
modelled as `Nat` with explicit `% 2^w` where the C types reduce modulo a
power of two: `uint_fast16_t` intermediates are 32-bit on this ARM target
(`% 4294967296`), and the CCR registers are 16-bit (`% 65536`).
-/

/-- PWM counting resolution in bits (`PWM_TRUE_RESOLUTION` in motor_pwm.c). -/
def PWM_TRUE_RESOLUTION : Nat := 10

/-- Top counter value, `(1 << PWM_TRUE_RESOLUTION) - 1` = 1023. -/
def PWM_TOP : Nat := (1 <<< PWM_TRUE_RESOLUTION) - 1

/-- Half of the counting range, `(1 << PWM_TRUE_RESOLUTION) / 2` = 512. -/
def PWM_HALF_TOP : Nat := (1 <<< PWM_TRUE_RESOLUTION) / 2

/-- `PWM_TIMER_FREQUENCY` = `STM32_TIMCLK1` = 72 MHz on this target. -/
def PWM_TIMER_FREQUENCY : Nat := 72000000

/-- Minimum high-side pulse width in nanoseconds (`PWM_MIN_PULSE_NANOSEC`). -/
def PWM_MIN_PULSE_NANOSEC : Nat := 300

/-- Switching dead time in nanoseconds (`PWM_DEAD_TIME_NANOSEC`). -/
def PWM_DEAD_TIME_NANOSEC : Nat := 400

/-- Modelled from the spec: `MOTOR_PWM_DUTY_CYCLE_RESOLUTION` comes from the
header `pwm.h`, which is not under src/.  The spec describes the external
duty-cycle code as a full-resolution `uint16_t` (0..2^N-1 for 0..100%),
hence 16 bits. -/
def MOTOR_PWM_DUTY_CYCLE_RESOLUTION : Nat := 16

/-- Modelled from the spec: maximum external duty-cycle code, the full-scale
`uint16_t` value 2^16 - 1 (from `pwm.h`, not under src/). -/
def MOTOR_PWM_DUTY_CYCLE_MAX : Nat := 65535

/-- Tick count derived from a nanosecond duration at the timer frequency,
`ticks = (time_ns / 1e9) * frequency`, truncated.  The C code performs this
computation in single-precision float and casts to `uint16_t`; at the
magnitudes involved here (21.6 and 28.8 ticks) the float result truncates
to the same integer as the exact truncated division modelled here. -/
def ticks_of_nanosec (ns : Nat) : Nat := ns * PWM_TIMER_FREQUENCY / 1000000000

/-- `pwm_min_pulse_ticks` as derived in `motor_pwm_init` (= 21). -/
def pwm_min_pulse_ticks : Nat := ticks_of_nanosec PWM_MIN_PULSE_NANOSEC

/-- `_pwm_max` as derived in `motor_pwm_init`:
`PWM_TOP - (pwm_min_pulse_ticks / 2 + 1)`.  The min value is divided by 2
because of center-aligned PWM. -/
def _pwm_max : Nat := PWM_TOP - (pwm_min_pulse_ticks / 2 + 1)

/-- `_pwm_dead_time_ticks` as derived in `motor_pwm_init` (= 28).  The dead
time is not halved. -/
def _pwm_dead_time_ticks : Nat := ticks_of_nanosec PWM_DEAD_TIME_NANOSEC

/-- 32-bit unsigned addition: `uint_fast16_t` arithmetic on this 32-bit target. -/
def u32add (a b : Nat) : Nat := (a % 4294967296 + b % 4294967296) % 4294967296

/-- 32-bit unsigned subtraction with wraparound. -/
def u32sub (a b : Nat) : Nat :=
  (a % 4294967296 + (4294967296 - b % 4294967296)) % 4294967296

/-- Per-phase output state: the two compare registers and the two
polarity-inversion CCER bits. -/
structure PhaseState where
  ccrHigh : Nat
  ccrLow : Nat
  polHigh : Bool
  polLow : Bool
deriving DecidableEq

/-- The phase-output state of the three phases. -/
structure PwmState where
  ph0 : PhaseState
  ph1 : PhaseState
  ph2 : PhaseState
deriving DecidableEq

def PwmState.get (s : PwmState) (i : Fin 3) : PhaseState :=
  match i with
  | 0 => s.ph0
  | 1 => s.ph1
  | 2 => s.ph2

def PwmState.set (s : PwmState) (i : Fin 3) (p : PhaseState) : PwmState :=
  match i with
  | 0 => { s with ph0 := p }
  | 1 => { s with ph1 := p }
  | 2 => { s with ph2 := p }

/-- The pair (high, low) of duty-cycle values computed by `phase_set_i`
before the register store: both start at `normalized_duty_cycle`, then one
of them is shifted by `_pwm_dead_time_ticks` according to `inverted` and
the comparison with `PWM_HALF_TOP`. -/
def phase_set_duties (normalized_duty_cycle : Nat) (inverted : Bool) : Nat × Nat :=
  if inverted then
    if PWM_HALF_TOP < normalized_duty_cycle then
      (normalized_duty_cycle, u32sub normalized_duty_cycle _pwm_dead_time_ticks)
    else
      (u32add normalized_duty_cycle _pwm_dead_time_ticks, normalized_duty_cycle)
  else
    if PWM_HALF_TOP < normalized_duty_cycle then
      (u32sub normalized_duty_cycle _pwm_dead_time_ticks, normalized_duty_cycle)
    else
      (normalized_duty_cycle, u32add normalized_duty_cycle _pwm_dead_time_ticks)

/-- `phase_set_i` from motor_pwm.c: sets the polarity-inversion bits from
`inverted` (inverted: clear TIM3 low bit, set TIM4 high bit; normal: set
TIM3 low bit, clear TIM4 high bit), then stores the two adjusted duty
cycles into the 16-bit compare registers. -/
def phase_set_i (s : PwmState) (phase : Fin 3) (normalized_duty_cycle : Nat)
    (inverted : Bool) : PwmState :=
  if inverted then
    s.set phase
      { polLow := false
        polHigh := true
        ccrHigh := (phase_set_duties normalized_duty_cycle true).1 % 65536
        ccrLow := (phase_set_duties normalized_duty_cycle true).2 % 65536 }
  else
    s.set phase
      { polLow := true
        polHigh := false
        ccrHigh := (phase_set_duties normalized_duty_cycle false).1 % 65536
        ccrLow := (phase_set_duties normalized_duty_cycle false).2 % 65536 }

/-- `motor_pwm_compute_pwm_val`: discard the extra least significant bits of
the 16-bit external duty code, map into the complementary half-bridge
domain `PWM_TOP - (PWM_TOP - corrected) / 2`, and clamp to `_pwm_max`. -/
def motor_pwm_compute_pwm_val (duty_cycle : Nat) : Nat :=
  let corrected :=
    (duty_cycle % 65536) >>> (MOTOR_PWM_DUTY_CYCLE_RESOLUTION - PWM_TRUE_RESOLUTION)
  let normalized := PWM_TOP - (PWM_TOP - corrected) / 2
  if _pwm_max < normalized then _pwm_max else normalized

/-- The `motor_pwm_phase_manip` commands. -/
inductive MotorPwmPhaseManip where
  | high
  | low
  | floating
  | half
deriving DecidableEq

/-- `motor_pwm_manip`: invalid phase returns with no state change; HIGH and
HALF compute a pwm value (max duty code or 0) and call `phase_set_i` with
`inverted = false`; FLOATING and LOW clear both polarity inversions, zero
the high-side compare, and set the low-side compare to `PWM_TOP` (LOW) or 0
(FLOATING). -/
def motor_pwm_manip (s : PwmState) (phase : Int) (command : MotorPwmPhaseManip) :
    PwmState :=
  if h : phase < 0 ∨ phase > 2 then s
  else
    let ph : Fin 3 := ⟨phase.toNat, by omega⟩
    if command = MotorPwmPhaseManip.high ∨ command = MotorPwmPhaseManip.half then
      let duty_cycle :=
        if command = MotorPwmPhaseManip.high then MOTOR_PWM_DUTY_CYCLE_MAX else 0
      let pwm_val := motor_pwm_compute_pwm_val duty_cycle
      phase_set_i s ph pwm_val false
    else
      let p := s.get ph
      let p := { p with polLow := false, polHigh := false }
      let p := { p with ccrHigh := 0 }
      let p :=
        if command = MotorPwmPhaseManip.low then { p with ccrLow := PWM_TOP }
        else { p with ccrLow := 0 }
      s.set ph p

/-- `motor_pwm_set_freewheeling`: FLOATING applied to phases 0, 1, 2. -/
def motor_pwm_set_freewheeling (s : PwmState) : PwmState :=
  motor_pwm_manip
    (motor_pwm_manip
      (motor_pwm_manip s 0 MotorPwmPhaseManip.floating) 1 MotorPwmPhaseManip.floating)
    2 MotorPwmPhaseManip.floating

/-- `motor_pwm_emergency`: for each of the three phases, clear both
polarity inversions and zero both compare registers (loop unrolled). -/
def motor_pwm_emergency (s : PwmState) : PwmState :=
  let clear := fun (s : PwmState) (ph : Fin 3) =>
    s.set ph { ccrHigh := 0, ccrLow := 0, polHigh := false, polLow := false }
  clear (clear (clear s 0) 1) 2

/-- A concrete all-zero state, used as a sample prior state in witnesses. -/
def zeroState : PwmState :=
  { ph0 := { ccrHigh := 0, ccrLow := 0, polHigh := false, polLow := false }
    ph1 := { ccrHigh := 0, ccrLow := 0, polHigh := false, polLow := false }
    ph2 := { ccrHigh := 0, ccrLow := 0, polHigh := false, polLow := false } }

theorem get_set (s : PwmState) (i : Fin 3) (p : PhaseState) : (s.set i p).get i = p := by
  fin_cases i <;> rfl

/-- Conclusion of the §4.4 rule table for one phase after `set_phase`: the
adjusted side and direction per (inverted, duty > half_top), and that
exactly one of the two compare values differs from the duty. -/
def dead_time_rule (p : PhaseState) (d : Nat) (inverted : Bool) : Prop :=
  ((inverted = false ∧ PWM_HALF_TOP < d) →
    (p.ccrHigh = d - _pwm_dead_time_ticks ∧ p.ccrLow = d))
  ∧ ((inverted = false ∧ d ≤ PWM_HALF_TOP) →
    (p.ccrLow = d + _pwm_dead_time_ticks ∧ p.ccrHigh = d))
  ∧ ((inverted = true ∧ PWM_HALF_TOP < d) →
    (p.ccrLow = d - _pwm_dead_time_ticks ∧ p.ccrHigh = d))
  ∧ ((inverted = true ∧ d ≤ PWM_HALF_TOP) →
    (p.ccrHigh = d + _pwm_dead_time_ticks ∧ p.ccrLow = d))
  ∧ ((p.ccrHigh = d ∧ p.ccrLow ≠ d) ∨ (p.ccrHigh ≠ d ∧ p.ccrLow = d))

/-- C1: for every phase, inverted flag and normalized duty d (in the
normalized range [half_top, pwm_max]), after `phase_set_i` exactly one of
the two compare values differs from d by exactly `_pwm_dead_time_ticks`
while the other equals d, with side and direction per the four-case rule
table: (false, d > half_top) high = d - dead; (false, d ≤ half_top)
low = d + dead; (true, d > half_top) low = d - dead; (true, d ≤ half_top)
high = d + dead. -/
theorem phase_set_dead_time_rule_table (s : PwmState) (phase : Fin 3) (inverted : Bool)
    (d : Nat) (h1 : PWM_HALF_TOP ≤ d) (h2 : d ≤ _pwm_max) :
    dead_time_rule ((phase_set_i s phase d inverted).get phase) d inverted := by
  have hmax : _pwm_max = 1012 := by decide
  have hdt : _pwm_dead_time_ticks = 28 := by decide
  have hht : PWM_HALF_TOP = 512 := by decide
  rw [hmax] at h2
  rw [hht] at h1
  by_cases hd : (512 : Nat) < d <;>
    cases inverted <;>
      simp [dead_time_rule, phase_set_i, get_set, phase_set_duties, u32add, u32sub,
        hht, hdt, hd] <;>
      omega

/-- Witness for C1 at phase 0, duty 600, inverted = false. -/
theorem phase_set_dead_time_rule_table_witness :
    PWM_HALF_TOP ≤ 600 ∧ (600 : Nat) ≤ _pwm_max ∧
      dead_time_rule ((phase_set_i zeroState 0 600 false).get 0) 600 false :=
  ⟨by decide, by decide,
    phase_set_dead_time_rule_table zeroState 0 false 600 (by decide) (by decide)⟩

/-- C2: for every external duty-cycle code (any uint16_t value), the
normalized duty produced by `motor_pwm_compute_pwm_val` lies in the closed
range [PWM_HALF_TOP, _pwm_max], hence also never exceeds PWM_TOP. -/
theorem compute_pwm_val_range (duty_cycle : Nat) :
    PWM_HALF_TOP ≤ motor_pwm_compute_pwm_val duty_cycle ∧
    motor_pwm_compute_pwm_val duty_cycle ≤ _pwm_max ∧
    motor_pwm_compute_pwm_val duty_cycle ≤ PWM_TOP := by
  have hmax : _pwm_max = 1012 := by decide
  have hht : PWM_HALF_TOP = 512 := by decide
  have htop : PWM_TOP = 1023 := by decide
  have hres : MOTOR_PWM_DUTY_CYCLE_RESOLUTION - PWM_TRUE_RESOLUTION = 6 := by decide
  have hcor : (duty_cycle % 65536) >>> 6 ≤ 1023 := by
    rw [Nat.shiftRight_eq_div_pow]
    have h2 : duty_cycle % 65536 < 65536 := Nat.mod_lt _ (by norm_num)
    omega
  simp only [motor_pwm_compute_pwm_val, hres, hht, hmax, htop]
  split <;> omega

/-- C3: with minimum-pulse 300 ns, dead-time 400 ns, 72 MHz and 10-bit
resolution, the derived dead time is 28 ticks (not halved), the minimum
pulse is 21 ticks, and `_pwm_max = PWM_TOP - (pwm_min_pulse_ticks / 2 + 1)
= 1023 - 11 = 1012`, by exact truncated arithmetic. -/
theorem init_derived_constants :
    _pwm_dead_time_ticks = 28 ∧
    pwm_min_pulse_ticks = 21 ∧
    _pwm_max = PWM_TOP - (pwm_min_pulse_ticks / 2 + 1) ∧
    _pwm_max = 1023 - 11 ∧
    _pwm_max = 1012 :=
  ⟨by decide, by decide, rfl, by decide, by decide⟩

/-- C4: from every prior state, `motor_pwm_emergency` leaves every phase
with both compare values zero and both polarity-inversion bits cleared. -/
theorem emergency_all_cleared (s : PwmState) (i : Fin 3) :
    (motor_pwm_emergency s).get i =
      { ccrHigh := 0, ccrLow := 0, polHigh := false, polLow := false } := by
  obtain ⟨p0, p1, p2⟩ := s
  fin_cases i <;> rfl

/-- C5: for every phase and every prior state, `motor_pwm_manip` with
FLOATING leaves that phase with both compares zero and both
polarity-inversion bits cleared, and `motor_pwm_set_freewheeling`
establishes that state on every phase. -/
theorem manip_floating_clears_phase (s : PwmState) (i : Fin 3) :
    (motor_pwm_manip s (i.val : Int) MotorPwmPhaseManip.floating).get i =
      { ccrHigh := 0, ccrLow := 0, polHigh := false, polLow := false } ∧
    (motor_pwm_set_freewheeling s).get i =
      { ccrHigh := 0, ccrLow := 0, polHigh := false, polLow := false } := by
  obtain ⟨p0, p1, p2⟩ := s
  fin_cases i <;> exact ⟨rfl, rfl⟩

/-- C6: for every phase and every prior state, `motor_pwm_manip` with LOW
leaves that phase with high compare 0, low compare PWM_TOP, and both
polarity-inversion bits cleared. -/
theorem manip_drive_low_state (s : PwmState) (i : Fin 3) :
    (motor_pwm_manip s (i.val : Int) MotorPwmPhaseManip.low).get i =
      { ccrHigh := 0, ccrLow := PWM_TOP, polHigh := false, polLow := false } := by
  obtain ⟨p0, p1, p2⟩ := s
  fin_cases i <;> rfl

/-- C7: `motor_pwm_manip` with HIGH equals `phase_set_i` at the normalized
maximum duty code with inverted = false, `motor_pwm_manip` with HALF equals
`phase_set_i` at the normalized zero duty code with inverted = false, and
the normalized zero duty code is exactly PWM_HALF_TOP. -/
theorem manip_high_half_refines_set_phase (s : PwmState) (i : Fin 3) :
    motor_pwm_manip s (i.val : Int) MotorPwmPhaseManip.high =
      phase_set_i s i (motor_pwm_compute_pwm_val MOTOR_PWM_DUTY_CYCLE_MAX) false ∧
    motor_pwm_manip s (i.val : Int) MotorPwmPhaseManip.half =
      phase_set_i s i (motor_pwm_compute_pwm_val 0) false ∧
    motor_pwm_compute_pwm_val 0 = PWM_HALF_TOP := by
  obtain ⟨p0, p1, p2⟩ := s
  fin_cases i <;> exact ⟨rfl, rfl, rfl⟩

/-- C9: for every phase, inverted flag and normalized duty in
[PWM_HALF_TOP, _pwm_max], both compare values written by `phase_set_i` are
at most PWM_TOP (and trivially at least 0), so the dead-time adjustment
never wraps, and the derived dead time is within the slack
`PWM_HALF_TOP - (PWM_TOP - _pwm_max)`. -/
theorem phase_set_no_wraparound (s : PwmState) (phase : Fin 3) (inverted : Bool)
    (d : Nat) (h1 : PWM_HALF_TOP ≤ d) (h2 : d ≤ _pwm_max) :
    ((phase_set_i s phase d inverted).get phase).ccrHigh ≤ PWM_TOP ∧
    ((phase_set_i s phase d inverted).get phase).ccrLow ≤ PWM_TOP ∧
    _pwm_dead_time_ticks ≤ PWM_HALF_TOP - (PWM_TOP - _pwm_max) := by
  have hmax : _pwm_max = 1012 := by decide
  have hdt : _pwm_dead_time_ticks = 28 := by decide
  have hht : PWM_HALF_TOP = 512 := by decide
  have htop : PWM_TOP = 1023 := by decide
  rw [hmax] at h2
  rw [hht] at h1
  by_cases hd : (512 : Nat) < d <;>
    cases inverted <;>
      simp [phase_set_i, get_set, phase_set_duties, u32add, u32sub,
        hht, hdt, hmax, htop, hd] <;>
      omega

/-- Witness for C9 at phase 1, duty 512, inverted = true. -/
theorem phase_set_no_wraparound_witness :
    PWM_HALF_TOP ≤ 512 ∧ (512 : Nat) ≤ _pwm_max ∧
      (((phase_set_i zeroState 1 512 true).get 1).ccrHigh ≤ PWM_TOP ∧
       ((phase_set_i zeroState 1 512 true).get 1).ccrLow ≤ PWM_TOP ∧
       _pwm_dead_time_ticks ≤ PWM_HALF_TOP - (PWM_TOP - _pwm_max)) :=
  ⟨by decide, by decide,
    phase_set_no_wraparound zeroState 1 true 512 (by decide) (by decide)⟩

/-- C10: for every phase index outside 0..2 and every command,
`motor_pwm_manip` returns with the whole phase-output state unchanged. -/
theorem manip_invalid_phase_unchanged (s : PwmState) (phase : Int)
    (command : MotorPwmPhaseManip) (h : phase < 0 ∨ phase > 2) :
    motor_pwm_manip s phase command = s := by
  unfold motor_pwm_manip
  rw [dif_pos h]

/-- Witness for C10 at phase 3 with FLOATING. -/
theorem manip_invalid_phase_unchanged_witness :
    ((3 : Int) < 0 ∨ (3 : Int) > 2) ∧
      motor_pwm_manip zeroState 3 MotorPwmPhaseManip.floating = zeroState :=
  ⟨Or.inr (by decide),
    manip_invalid_phase_unchanged zeroState 3 MotorPwmPhaseManip.floating
      (Or.inr (by decide))⟩

/-- Hardware-visible events of one `motor_pwm_manip` call, in program
order: interrupt mask changes, polarity-bit writes (CCER), and compare
register writes (CCR). -/
inductive Ev where
  | irqDisable
  | irqEnable
  | writePolHigh (phase : Nat) (v : Bool)
  | writePolLow (phase : Nat) (v : Bool)
  | writeCcrHigh (phase : Nat) (v : Nat)
  | writeCcrLow (phase : Nat) (v : Nat)
deriving DecidableEq

def isPolWrite : Ev → Bool
  | Ev.writePolHigh _ _ => true
  | Ev.writePolLow _ _ => true
  | _ => false

def isCcrWrite : Ev → Bool
  | Ev.writeCcrHigh _ _ => true
  | Ev.writeCcrLow _ _ => true
  | _ => false

/-- Whether interrupts are masked just before the event at position `i`
(scanning the mask-change events among the first `i`). -/
def maskedAt (tr : List Ev) (i : Nat) : Bool :=
  (tr.take i).foldl
    (fun m e =>
      match e with
      | Ev.irqDisable => true
      | Ev.irqEnable => false
      | _ => m)
    false

/-- Event trace of `phase_set_i`, in the source's program order: the two
CCER polarity writes, then the high and low compare writes. -/
def phase_set_i_trace (phase : Nat) (normalized_duty_cycle : Nat) (inverted : Bool) :
    List Ev :=
  (if inverted then
    [Ev.writePolLow phase false, Ev.writePolHigh phase true]
  else
    [Ev.writePolLow phase true, Ev.writePolHigh phase false])
  ++ [Ev.writeCcrHigh phase ((phase_set_duties normalized_duty_cycle inverted).1 % 65536),
      Ev.writeCcrLow phase ((phase_set_duties normalized_duty_cycle inverted).2 % 65536)]

/-- Event trace of `motor_pwm_manip`, in the source's program order.  For
HIGH/HALF the whole `phase_set_i` body runs between
`irq_primask_disable()` and `irq_primask_enable()`; for FLOATING/LOW only
the polarity clearing is inside the masked section, and the compare writes
follow after `irq_primask_enable()`. -/
def motor_pwm_manip_trace (phase : Int) (command : MotorPwmPhaseManip) : List Ev :=
  if phase < 0 ∨ phase > 2 then []
  else if command = MotorPwmPhaseManip.high ∨ command = MotorPwmPhaseManip.half then
    let duty_cycle :=
      if command = MotorPwmPhaseManip.high then MOTOR_PWM_DUTY_CYCLE_MAX else 0
    [Ev.irqDisable]
      ++ phase_set_i_trace phase.toNat (motor_pwm_compute_pwm_val duty_cycle) false
      ++ [Ev.irqEnable]
  else
    [Ev.irqDisable, Ev.writePolLow phase.toNat false, Ev.writePolHigh phase.toNat false,
     Ev.irqEnable, Ev.writeCcrHigh phase.toNat 0,
     Ev.writeCcrLow phase.toNat (if command = MotorPwmPhaseManip.low then PWM_TOP else 0)]

/-- The C8 ordering guarantee for one trace: every polarity or compare
write happens while interrupts are masked, all polarity writes precede all
compare writes, and no interrupt-enable separates any two of these writes
(they sit in one single masked section). -/
abbrev one_masked_section_pol_before_ccr (tr : List Ev) : Prop :=
  (∀ i : Fin tr.length,
    (isPolWrite (tr.get i) || isCcrWrite (tr.get i)) = true → maskedAt tr i.val = true)
  ∧ (∀ i j : Fin tr.length,
      isPolWrite (tr.get i) = true → isCcrWrite (tr.get j) = true → i.val < j.val)
  ∧ (∀ i j k : Fin tr.length,
      (isPolWrite (tr.get i) || isCcrWrite (tr.get i)) = true →
      (isPolWrite (tr.get j) || isCcrWrite (tr.get j)) = true →
      i.val < k.val → k.val < j.val → tr.get k ≠ Ev.irqEnable)

/-- The weaker guarantee the FLOATING/LOW branch actually provides: the
polarity writes are masked, and every polarity write precedes every
compare write in program order. -/
abbrev pol_masked_and_before_ccr (tr : List Ev) : Prop :=
  (∀ i : Fin tr.length, isPolWrite (tr.get i) = true → maskedAt tr i.val = true)
  ∧ (∀ i j : Fin tr.length,
      isPolWrite (tr.get i) = true → isCcrWrite (tr.get j) = true → i.val < j.val)

/-- C8 counterexample: in the FLOATING branch of `motor_pwm_manip` (phase
0), the compare writes happen after `irq_primask_enable()`, outside the
masked section that wrote the polarity bits, so the claimed
single-masked-section guarantee fails. -/
theorem manip_floating_not_one_masked_section :
    ¬ one_masked_section_pol_before_ccr
        (motor_pwm_manip_trace 0 MotorPwmPhaseManip.floating) := by
  decide

/-- C8 amended: for every phase, the HIGH and HALF paths (which route
through `phase_set_i`) write polarity bits and compare values inside one
single masked section with polarity first; the FLOATING and LOW paths
write the polarity bits inside a masked section and the compare writes
follow only after interrupts are re-enabled, though still after the
polarity writes in program order. -/
theorem polarity_before_compares_in_program_order :
    ∀ i : Fin 3,
      one_masked_section_pol_before_ccr
        (motor_pwm_manip_trace (i.val : Int) MotorPwmPhaseManip.high) ∧
      one_masked_section_pol_before_ccr
        (motor_pwm_manip_trace (i.val : Int) MotorPwmPhaseManip.half) ∧
      pol_masked_and_before_ccr
        (motor_pwm_manip_trace (i.val : Int) MotorPwmPhaseManip.floating) ∧
      (¬ one_masked_section_pol_before_ccr
        (motor_pwm_manip_trace (i.val : Int) MotorPwmPhaseManip.floating)) ∧
      pol_masked_and_before_ccr
        (motor_pwm_manip_trace (i.val : Int) MotorPwmPhaseManip.low) ∧
      (¬ one_masked_section_pol_before_ccr
        (motor_pwm_manip_trace (i.val : Int) MotorPwmPhaseManip.low)) := by
  intro i
  fin_cases i <;>
    exact ⟨by decide, by decide, by decide, by decide, by decide, by decide⟩
